import Mathlib

/-!
Verification of the RGB schemata repository (five asset-contract archetypes:
NIA, CFA, PFA, UDA, IFA).

The repository contains, for each archetype, a structural schema, a set of
validation programs written for a small register virtual machine (AluVM, via
the `rgbasm!` macro), a pinned 32-byte schema id, and a typed read-only query
wrapper.  The archetype definitions (programs, schemas, constants, wrappers)
are embedded below directly from `src/nia.rs`, `src/cfa.rs`, `src/pfa.rs`,
`src/uda.rs`, `src/ifa.rs` and `src/lib.rs`.

The register machine itself lives in an external crate and is not part of the
repository sources; its semantics (instruction behaviour, failure semantics,
zero-initialised registers, fall-off-the-end success) are modelled from the
specification, section 4.3.  Programs are represented as lists of
instructions; byte offsets of jump targets and entry points from the sources
are translated to instruction indices, recorded in comments next to each
program.
-/

namespace RgbSchemata

/-- Error code constants from `src/lib.rs`. -/
def ERRNO_NON_EQUAL_IN_OUT : Nat := 0

/-- Error code constant from `src/lib.rs`: issued-supply mismatch. -/
def ERRNO_ISSUED_MISMATCH : Nat := 1

/-- Error code constant from `src/lib.rs`: non-fractional violation (UDA). -/
def ERRNO_NON_FRACTIONAL : Nat := 10

/-- Error code constant from `src/lib.rs`: missing public key (PFA). -/
def ERRNO_MISSING_PUBKEY : Nat := 20

/-- Error code constant from `src/lib.rs`: invalid signature (PFA). -/
def ERRNO_INVALID_SIGNATURE : Nat := 21

/-- Error code constant from `src/lib.rs`: inflation mismatch (IFA). -/
def ERRNO_INFLATION_MISMATCH : Nat := 30

/-- Error code constant from `src/lib.rs`: inflation exceeds allowance (IFA). -/
def ERRNO_INFLATION_EXCEEDS_ALLOWANCE : Nat := 31

/-- Modelled from the spec: `src/ifa.rs` imports two replace-right error
constants (`ERRNO_REPLACE_HIDDEN_BURN`, `ERRNO_REPLACE_NO_INPUT`) from the
crate root, but the provided `src/lib.rs` revision does not declare them.
The spec fixes no numeric values (it only requires error codes to be small
distinct integers private to the archetype); the values below are chosen
distinct from every declared code, and no claim depends on them. -/
def ERRNO_REPLACE_HIDDEN_BURN : Nat := 40

/-- Modelled from the spec: companion constant to `ERRNO_REPLACE_HIDDEN_BURN`,
see there. -/
def ERRNO_REPLACE_NO_INPUT : Nat := 41

/-- Global-state slot ids from `src/lib.rs`. -/
def GS_ART : Nat := 3000

/-- Global-state slot id from `src/lib.rs`. -/
def GS_ATTACH : Nat := 2104

/-- Global-state slot id from `src/lib.rs`. -/
def GS_DETAILS : Nat := 3004

/-- Global-state slot id from `src/lib.rs`. -/
def GS_ISSUED_SUPPLY : Nat := 2010

/-- Global-state slot id from `src/lib.rs`. -/
def GS_MAX_SUPPLY : Nat := 2011

/-- Global-state slot id from `src/lib.rs`. -/
def GS_NAME : Nat := 3001

/-- Global-state slot id from `src/lib.rs`. -/
def GS_NOMINAL : Nat := 2000

/-- Global-state slot id from `src/lib.rs`. -/
def GS_PRECISION : Nat := 3005

/-- Global-state slot id from `src/lib.rs`. -/
def GS_TERMS : Nat := 2001

/-- Global-state slot id from `src/lib.rs`. -/
def GS_TOKENS : Nat := 2102

/-- Global-state slot id from `src/lib.rs`. -/
def GS_PUBKEY : Nat := 3006

/-- Modelled from the spec: `src/ifa.rs` imports `GS_REJECT_LIST_URL` from the
crate root, absent from the provided `src/lib.rs` revision (which declares a
similar `GS_OPID_REJECT_URL = 2012`); the value is immaterial to every claim. -/
def GS_REJECT_LIST_URL : Nat := 2012

/-- Assignment (owned-state) slot ids from `src/lib.rs`. -/
def OS_ASSET : Nat := 4000

/-- Assignment slot id from `src/lib.rs`. -/
def OS_INFLATION : Nat := 4010

/-- Assignment slot id from `src/lib.rs`. -/
def OS_REPLACE : Nat := 4012

/-- Transition type ids from `src/lib.rs`. -/
def TS_INFLATION : Nat := 8000

/-- Transition type id from `src/lib.rs`. -/
def TS_BURN : Nat := 8010

/-- Transition type id from `src/lib.rs`. -/
def TS_REPLACE : Nat := 8011

/-- Transition type id from `src/lib.rs`. -/
def TS_TRANSFER : Nat := 10000

/-- Metadata slot id from `src/lib.rs`. -/
def MS_ALLOWED_INFLATION : Nat := 1000

/-- Bound of unsigned 32-bit integers. -/
def u32Size : Nat := 4294967296

/-- Bound of unsigned 64-bit integers. -/
def u64Size : Nat := 18446744073709551616

/-- Byte strings: the content of the variable-length string registers and of
state values, one natural number below 256 per byte. -/
abbrev Bytes := List Nat

/-- Little-endian byte extraction: the k-th byte of n. -/
def byteAt (n k : Nat) : Nat := n / 256 ^ k % 256

/-- Little-endian encoding of an unsigned 32-bit integer (strict encoding of
`TokenIndex` and friends). -/
def enc32 (n : Nat) : Bytes := [byteAt n 0, byteAt n 1, byteAt n 2, byteAt n 3]

/-- Little-endian encoding of an unsigned 64-bit integer (strict encoding of
`RGBContract.Amount`). -/
def enc64 (n : Nat) : Bytes :=
  [byteAt n 0, byteAt n 1, byteAt n 2, byteAt n 3,
   byteAt n 4, byteAt n 5, byteAt n 6, byteAt n 7]

/-- Little-endian decoding of a byte string into a natural number; this is
what the machine's `EXTR` instruction computes on the extracted slice. -/
def decLE : Bytes → Nat
  | [] => 0
  | b :: bs => b % 256 + 256 * decLE bs

/-- State value held by an assignment slot: a 64-bit fungible amount, a
structured (strict-encoded) byte blob, or a bare declarative right. -/
inductive Val where
  | fungible (amount : Nat)
  | structured (bytes : Bytes)
  | right
deriving DecidableEq, Repr

/-- Strict-encoded bytes of a state value, as loaded by `LDP`/`LDS`. -/
def Val.bytes : Val → Bytes
  | .fungible n => enc64 n
  | .structured bs => bs
  | .right => []

/-- Sum of the fungible values of a list of assignment values; the quantity
compared by the machine's `SAS`/`SPS`/`SVS` instructions. -/
def sumFungible (vs : List Val) : Nat :=
  vs.foldr (fun v acc => match v with | .fungible n => n + acc | _ => acc) 0

/-- Modelled from the spec: the proposed-state view the external validation
host supplies to the register machine (spec section 6) — ordered values per
global-state slot of the operation under test, full-contract global state
(read by `LDC`), metadata, input and output assignments, and the judgement
of the host's signature verifier as a function of the public-key bytes
(consumed by `VTS`). -/
structure OpState where
  globals : Nat → List Bytes
  contractGlobals : Nat → List Bytes
  metas : Nat → Option Bytes
  inputs : Nat → List Val
  outputs : Nat → List Val
  sigOk : Bytes → Bool

/-- Modelled from the spec: the machine's register file (spec section 4.3) —
fixed-width integer banks `a8`/`a16`/`a32`/`a64`, byte-string bank `s16`,
and the boolean test flag `st0`, all zero-initialised (flag set to success)
at program entry. -/
structure Regs where
  a8 : Nat → Nat
  a16 : Nat → Nat
  a32 : Nat → Nat
  a64 : Nat → Nat
  s16 : Nat → Bytes
  st0 : Bool

/-- Initial register file: all registers zero, test flag success. -/
def initRegs : Regs :=
  { a8 := fun _ => 0, a16 := fun _ => 0, a32 := fun _ => 0, a64 := fun _ => 0,
    s16 := fun _ => [], st0 := true }

/-- Modelled from the spec: the opcode subset used by the five archetype
programs (spec section 4.3).  Jump targets are instruction indices (the
assembled byte offsets of the sources are translated next to each program). -/
inductive Instr where
  | put8 (idx imm : Nat)
  | put16 (idx imm : Nat)
  | put32 (idx imm : Nat)
  | put64 (idx imm : Nat)
  | ldg (slot idxReg dst : Nat)
  | ldc (slot idxReg dst : Nat)
  | ldm (slot dst : Nat)
  | ldp (slot idxReg dst : Nat)
  | lds (slot idxReg dst : Nat)
  | extr32 (src dst offReg : Nat)
  | extr64 (src dst offReg : Nat)
  | sas (slot : Nat)
  | sps (slot : Nat)
  | svs (slot : Nat)
  | cnp (slot dst : Nat)
  | cns (slot dst : Nat)
  | addUc (src dst : Nat)
  | subUc (src dst : Nat)
  | cpy64 (src dst : Nat)
  | eq16 (x y : Nat)
  | eq32 (x y : Nat)
  | eq64 (x y : Nat)
  | ltU16 (x y : Nat)
  | inv
  | test
  | jif (target : Nat)
  | jmp (target : Nat)
  | vts (src : Nat)
  | ret
deriving DecidableEq, Repr

/-- Validation verdict: accept, or reject with the numeric error code set by
the most recent `PUT a8[0]` (spec section 4.3, failure semantics). -/
inductive Verdict where
  | accept
  | reject (errno : Nat)
deriving DecidableEq, Repr

/-- Modelled from the spec: execution of a validation program (spec section
4.3).  Straight-line execution with explicit jumps; `TEST` aborts with the
current error code on a failed flag; a failing load (`LDG`/`LDM`/`LDP`/`LDS`
on an absent value) or an out-of-bounds `EXTR` slice aborts the validation
with the current error code; `RET` and falling off the end are success.
The fuel argument bounds the number of steps; the programs of this repository
use forward jumps only, so any fuel beyond the program length is enough and
the fuel-exhaustion sentinel is never reached. -/
def exec (op : OpState) (prog : List Instr) : Nat → Nat → Regs → Verdict
  | 0, _, _ => .reject 99
  | fuel + 1, pc, r =>
    match prog[pc]? with
    | none => .accept
    | some i =>
      match i with
      | .put8 idx imm =>
          exec op prog fuel (pc + 1) { r with a8 := fun j => if j = idx then imm else r.a8 j }
      | .put16 idx imm =>
          exec op prog fuel (pc + 1) { r with a16 := fun j => if j = idx then imm else r.a16 j }
      | .put32 idx imm =>
          exec op prog fuel (pc + 1) { r with a32 := fun j => if j = idx then imm else r.a32 j }
      | .put64 idx imm =>
          exec op prog fuel (pc + 1) { r with a64 := fun j => if j = idx then imm else r.a64 j }
      | .ldg slot idxReg dst =>
          match (op.globals slot)[r.a8 idxReg]? with
          | none => .reject (r.a8 0)
          | some bs =>
              exec op prog fuel (pc + 1) { r with s16 := fun j => if j = dst then bs else r.s16 j }
      | .ldc slot idxReg dst =>
          match (op.contractGlobals slot)[r.a32 idxReg]? with
          | none => .reject (r.a8 0)
          | some bs =>
              exec op prog fuel (pc + 1) { r with s16 := fun j => if j = dst then bs else r.s16 j }
      | .ldm slot dst =>
          match op.metas slot with
          | none => .reject (r.a8 0)
          | some bs =>
              exec op prog fuel (pc + 1) { r with s16 := fun j => if j = dst then bs else r.s16 j }
      | .ldp slot idxReg dst =>
          match (op.inputs slot)[r.a16 idxReg]? with
          | none => .reject (r.a8 0)
          | some v =>
              exec op prog fuel (pc + 1)
                { r with s16 := fun j => if j = dst then v.bytes else r.s16 j }
      | .lds slot idxReg dst =>
          match (op.outputs slot)[r.a16 idxReg]? with
          | none => .reject (r.a8 0)
          | some v =>
              exec op prog fuel (pc + 1)
                { r with s16 := fun j => if j = dst then v.bytes else r.s16 j }
      | .extr32 src dst offReg =>
          let off := r.a16 offReg
          let s := r.s16 src
          if off + 4 ≤ s.length then
            exec op prog fuel (pc + 1)
              { r with a32 := fun j => if j = dst then decLE ((s.drop off).take 4) else r.a32 j }
          else .reject (r.a8 0)
      | .extr64 src dst offReg =>
          let off := r.a16 offReg
          let s := r.s16 src
          if off + 8 ≤ s.length then
            exec op prog fuel (pc + 1)
              { r with a64 := fun j => if j = dst then decLE ((s.drop off).take 8) else r.a64 j }
          else .reject (r.a8 0)
      | .sas slot =>
          exec op prog fuel (pc + 1)
            { r with st0 := sumFungible (op.outputs slot) = r.a64 0 }
      | .sps slot =>
          exec op prog fuel (pc + 1)
            { r with st0 := sumFungible (op.inputs slot) = r.a64 0 }
      | .svs slot =>
          exec op prog fuel (pc + 1)
            { r with st0 := sumFungible (op.inputs slot) = sumFungible (op.outputs slot) }
      | .cnp slot dst =>
          exec op prog fuel (pc + 1)
            { r with a16 := fun j => if j = dst then (op.inputs slot).length else r.a16 j }
      | .cns slot dst =>
          exec op prog fuel (pc + 1)
            { r with a16 := fun j => if j = dst then (op.outputs slot).length else r.a16 j }
      | .addUc src dst =>
          if r.a64 src + r.a64 dst < u64Size then
            exec op prog fuel (pc + 1)
              { r with a64 := fun j => if j = dst then r.a64 src + r.a64 dst else r.a64 j,
                       st0 := true }
          else
            exec op prog fuel (pc + 1) { r with st0 := false }
      | .subUc src dst =>
          if r.a64 dst ≤ r.a64 src then
            exec op prog fuel (pc + 1)
              { r with a64 := fun j => if j = dst then r.a64 src - r.a64 dst else r.a64 j,
                       st0 := true }
          else
            exec op prog fuel (pc + 1) { r with st0 := false }
      | .cpy64 src dst =>
          exec op prog fuel (pc + 1)
            { r with a64 := fun j => if j = dst then r.a64 src else r.a64 j }
      | .eq16 x y =>
          exec op prog fuel (pc + 1) { r with st0 := r.a16 x = r.a16 y }
      | .eq32 x y =>
          exec op prog fuel (pc + 1) { r with st0 := r.a32 x = r.a32 y }
      | .eq64 x y =>
          exec op prog fuel (pc + 1) { r with st0 := r.a64 x = r.a64 y }
      | .ltU16 x y =>
          exec op prog fuel (pc + 1) { r with st0 := r.a16 x < r.a16 y }
      | .inv =>
          exec op prog fuel (pc + 1) { r with st0 := !r.st0 }
      | .test => if r.st0 then exec op prog fuel (pc + 1) r else .reject (r.a8 0)
      | .jif target => if r.st0 then exec op prog fuel target r else exec op prog fuel (pc + 1) r
      | .jmp target => exec op prog fuel target r
      | .vts src =>
          exec op prog fuel (pc + 1) { r with st0 := op.sigOk (r.s16 src) }
      | .ret => .accept

/-- Run a validation program from a given entry instruction index on fresh
registers.  Fuel 32 exceeds the length of every program below, and the
programs use forward jumps only, so execution always terminates by `RET` or
by falling off the end within the fuel. -/
def run (prog : List Instr) (entry : Nat) (op : OpState) : Verdict :=
  exec op prog 32 entry initRegs

/-- Validation library of `src/nia.rs` (`nia_lib`), also referenced by the
CFA schema of `src/cfa.rs`.  Instruction indices and assembled byte offsets:
transfer subroutine at index 0 (byte 0 = `FN_NIA_TRANSFER_OFFSET`), genesis
subroutine at index 4 (byte 9 = `FN_NIA_GENESIS_OFFSET` = 4 + 3 + 2). -/
def nia_lib : List Instr := [
  -- SUBROUTINE Transfer validation
  .put8 0 ERRNO_NON_EQUAL_IN_OUT,      -- 0: put a8[0],ERRNO_NON_EQUAL_IN_OUT
  .svs OS_ASSET,                       -- 1: svs OS_ASSET
  .test,                               -- 2: test
  .ret,                                -- 3: ret
  -- SUBROUTINE Genesis validation
  .put8 0 ERRNO_ISSUED_MISMATCH,       -- 4: put a8[0],ERRNO_ISSUED_MISMATCH
  .put8 1 0,                           -- 5: put a8[1],0
  .put16 0 0,                          -- 6: put a16[0],0
  .ldg GS_ISSUED_SUPPLY 1 0,           -- 7: ldg GS_ISSUED_SUPPLY,a8[1],s16[0]
  .extr64 0 0 0,                       -- 8: extr s16[0],a64[0],a16[0]
  .sas OS_ASSET,                       -- 9: sas OS_ASSET
  .test,                               -- 10: test
  .ret]                                -- 11: ret

/-- Instruction index of the NIA transfer subroutine (byte offset
`FN_NIA_TRANSFER_OFFSET = 0` of `src/nia.rs`). -/
def FN_NIA_TRANSFER_IDX : Nat := 0

/-- Instruction index of the NIA genesis subroutine (byte offset
`FN_NIA_GENESIS_OFFSET = 4 + 3 + 2 = 9` of `src/nia.rs`). -/
def FN_NIA_GENESIS_IDX : Nat := 4

/-- Transition validation library of `src/pfa.rs` (`pfa_lib_transition`),
entry at index 0 (byte offset 0). -/
def pfa_lib_transition : List Instr := [
  -- Checking that the sum of inputs is equal to the sum of outputs
  .put8 0 ERRNO_NON_EQUAL_IN_OUT,      -- 0: put a8[0],ERRNO_NON_EQUAL_IN_OUT
  .svs OS_ASSET,                       -- 1: svs OS_ASSET
  .test,                               -- 2: test
  -- Check transition signature
  .put8 0 ERRNO_MISSING_PUBKEY,        -- 3: put a8[0],ERRNO_MISSING_PUBKEY
  .put32 0 0,                          -- 4: put a32[0],0
  .ldc GS_PUBKEY 0 0,                  -- 5: ldc GS_PUBKEY,a32[0],s16[0]
  .put8 0 ERRNO_INVALID_SIGNATURE,     -- 6: put a8[0],ERRNO_INVALID_SIGNATURE
  .vts 0,                              -- 7: vts s16[0]
  .test,                               -- 8: test
  .ret]                                -- 9: ret

/-- Genesis validation library of `src/pfa.rs` (`pfa_lib_genesis`), entry at
index 0 (byte offset 0). -/
def pfa_lib_genesis : List Instr := [
  .put8 0 ERRNO_ISSUED_MISMATCH,       -- 0: put a8[0],ERRNO_ISSUED_MISMATCH
  .put8 1 0,                           -- 1: put a8[1],0
  .put16 0 0,                          -- 2: put a16[0],0
  .ldg GS_ISSUED_SUPPLY 1 0,           -- 3: ldg GS_ISSUED_SUPPLY,a8[1],s16[0]
  .extr64 0 0 0,                       -- 4: extr s16[0],a64[0],a16[0]
  .sas OS_ASSET,                       -- 5: sas OS_ASSET
  .test,                               -- 6: test
  .ret]                                -- 7: ret

/-- Genesis validation library of `src/ifa.rs` (`ifa_lib_genesis`), entry at
index 0 (byte offset 0). -/
def ifa_lib_genesis : List Instr := [
  -- Set common offsets
  .put8 1 0,                           -- 0: put a8[1],0
  .put16 0 0,                          -- 1: put a16[0],0
  -- Check reported issued supply against sum of asset allocations in output
  .put8 0 ERRNO_ISSUED_MISMATCH,       -- 2: put a8[0],ERRNO_ISSUED_MISMATCH
  .ldg GS_ISSUED_SUPPLY 1 0,           -- 3: ldg GS_ISSUED_SUPPLY,a8[1],s16[0]
  .extr64 0 0 0,                       -- 4: extr s16[0],a64[0],a16[0]
  .sas OS_ASSET,                       -- 5: sas OS_ASSET
  .test,                               -- 6: test
  -- Check that sum of inflation rights = max supply - issued supply
  .put8 0 ERRNO_INFLATION_MISMATCH,    -- 7: put a8[0],ERRNO_INFLATION_MISMATCH
  .ldg GS_MAX_SUPPLY 1 1,              -- 8: ldg GS_MAX_SUPPLY,a8[1],s16[1]
  .extr64 1 1 0,                       -- 9: extr s16[1],a64[1],a16[0]
  .subUc 1 0,                          -- 10: sub.uc a64[1],a64[0] (result into a64[0])
  .test,                               -- 11: test (fails if result is negative)
  .sas OS_INFLATION,                   -- 12: sas OS_INFLATION
  .test,                               -- 13: test
  .ret]                                -- 14: ret

/-- Transfer (and replace) validation library of `src/ifa.rs`
(`ifa_lib_transfer`), entry at index 0 (byte offset 0).  The `jif 40` of the
source jumps to assembled byte offset 0x28, which the source labels as the
`put a8[0],ERRNO_REPLACE_NO_INPUT` instruction: instruction index 15. -/
def ifa_lib_transfer : List Instr := [
  -- Checking that the sum of inputs is equal to the sum of outputs
  .put8 0 ERRNO_NON_EQUAL_IN_OUT,      -- 0: put a8[0],ERRNO_NON_EQUAL_IN_OUT
  .svs OS_ASSET,                       -- 1: svs OS_ASSET
  .test,                               -- 2: test
  .svs OS_INFLATION,                   -- 3: svs OS_INFLATION
  .test,                               -- 4: test
  -- Replace rights validation
  .cnp OS_REPLACE 0,                   -- 5: cnp OS_REPLACE,a16[0]
  .cns OS_REPLACE 1,                   -- 6: cns OS_REPLACE,a16[1]
  .put16 2 0,                          -- 7: put a16[2],0
  .eq16 0 2,                           -- 8: eq.n a16[0],a16[2]
  .jif 15,                             -- 9: jif 40 (byte 0x28 = index 15)
  -- Input count > 0, check that output count >= input count
  .put8 0 ERRNO_REPLACE_HIDDEN_BURN,   -- 10: put a8[0],ERRNO_REPLACE_HIDDEN_BURN
  .ltU16 1 0,                          -- 11: lt.u a16[1],a16[0]
  .inv,                                -- 12: inv st0
  .test,                               -- 13: test
  .ret,                                -- 14: ret
  -- Input count is 0, output count must also be 0
  .put8 0 ERRNO_REPLACE_NO_INPUT,      -- 15: put a8[0],ERRNO_REPLACE_NO_INPUT
  .eq16 1 0,                           -- 16: eq.n a16[1],a16[0]
  .test,                               -- 17: test
  .ret]                                -- 18: ret

/-- Inflation validation library of `src/ifa.rs` (`ifa_lib_inflation`), entry
at index 0 (byte offset 0). -/
def ifa_lib_inflation : List Instr := [
  -- Set common offsets
  .put8 1 0,                               -- 0: put a8[1],0
  .put16 0 0,                              -- 1: put a16[0],0
  -- Check reported issued supply equals sum of asset allocations in output
  .put8 0 ERRNO_ISSUED_MISMATCH,           -- 2: put a8[0],ERRNO_ISSUED_MISMATCH
  .ldg GS_ISSUED_SUPPLY 1 0,               -- 3: ldg GS_ISSUED_SUPPLY,a8[1],s16[0]
  .extr64 0 0 0,                           -- 4: extr s16[0],a64[0],a16[0]
  .sas OS_ASSET,                           -- 5: sas OS_ASSET
  .test,                                   -- 6: test
  .cpy64 0 1,                              -- 7: cpy a64[0],a64[1]
  -- Check reported allowed inflation equals sum of inflation rights in output
  .put8 0 ERRNO_INFLATION_MISMATCH,        -- 8: put a8[0],ERRNO_INFLATION_MISMATCH
  .ldm MS_ALLOWED_INFLATION 0,             -- 9: ldm MS_ALLOWED_INFLATION,s16[0]
  .extr64 0 0 0,                           -- 10: extr s16[0],a64[0],a16[0]
  .sas OS_INFLATION,                       -- 11: sas OS_INFLATION
  .test,                                   -- 12: test
  -- Check that input inflation rights equals issued supply + allowed inflation
  .put8 0 ERRNO_INFLATION_EXCEEDS_ALLOWANCE, -- 13: put a8[0],ERRNO_INFLATION_EXCEEDS_ALLOWANCE
  .addUc 1 0,                              -- 14: add.uc a64[1],a64[0] (result into a64[0])
  .test,                                   -- 15: test (fails in case of an overflow)
  .sps OS_INFLATION,                       -- 16: sps OS_INFLATION
  .test,                                   -- 17: test
  .ret]                                    -- 18: ret

/-- Validation library of `src/uda.rs` (`uda_lib`).  Instruction indices and
assembled byte offsets: transfer subroutine at index 0 (byte 0 =
`FN_TRANSFER_OFFSET`), genesis subroutine at index 3 (byte 11 =
`FN_GENESIS_OFFSET` = 4 + 4 + 3), shared subroutine at index 6 (byte 23 =
`FN_SHARED_OFFSET` = 11 + 4 + 4 + 4); the transfer subroutine tail-jumps into
the shared body. -/
def uda_lib : List Instr := [
  -- SUBROUTINE 2: Transfer validation
  .put16 0 0,                          -- 0: put a16[0],0
  .ldp OS_ASSET 0 0,                   -- 1: ldp OS_ASSET,a16[0],s16[0]
  .jmp 6,                              -- 2: jmp FN_SHARED_OFFSET (byte 23 = index 6)
  -- SUBROUTINE 1: Genesis validation
  .put16 0 0,                          -- 3: put a16[0],0x00
  .put8 1 0,                           -- 4: put a8[1],0x00
  .ldg GS_TOKENS 1 0,                  -- 5: ldg GS_TOKENS,a8[1],s16[0]
  -- SUBROUTINE 3: Shared code
  .put8 0 ERRNO_NON_EQUAL_IN_OUT,      -- 6: put a8[0],ERRNO_NON_EQUAL_IN_OUT
  .extr32 0 0 0,                       -- 7: extr s16[0],a32[0],a16[0]
  .put16 1 0,                          -- 8: put a16[1],0x00
  .lds OS_ASSET 1 1,                   -- 9: lds OS_ASSET,a16[1],s16[1]
  .extr32 1 1 0,                       -- 10: extr s16[1],a32[1],a16[0]
  .eq32 0 1,                           -- 11: eq.n a32[0],a32[1]
  .test,                               -- 12: test
  .put8 0 ERRNO_NON_FRACTIONAL,        -- 13: put a8[0],ERRNO_NON_FRACTIONAL
  .put16 2 4,                          -- 14: put a16[2],4
  .extr64 1 0 2,                       -- 15: extr s16[1],a64[0],a16[2]
  .put64 1 1,                          -- 16: put a64[1],1
  .eq64 0 1,                           -- 17: eq.n a64[0],a64[1]
  .test]                               -- 18: test (falling off the end = success)

/-- Instruction index of the UDA transfer subroutine (byte offset
`FN_TRANSFER_OFFSET = 0` of `src/uda.rs`). -/
def FN_UDA_TRANSFER_IDX : Nat := 0

/-- Instruction index of the UDA genesis subroutine (byte offset
`FN_GENESIS_OFFSET = 4 + 4 + 3 = 11` of `src/uda.rs`). -/
def FN_UDA_GENESIS_IDX : Nat := 3

/-- Instruction index of the UDA shared subroutine (byte offset
`FN_SHARED_OFFSET = 11 + 4 + 4 + 4 = 23` of `src/uda.rs`). -/
def FN_UDA_SHARED_IDX : Nat := 6

/-! Helper lemmas about the byte encoding and fungible sums. -/

theorem decLE_enc64 {n : Nat} (h : n < u64Size) : decLE (enc64 n) = n := by
  simp only [enc64, decLE, byteAt, u64Size] at *
  norm_num
  omega

theorem decLE_enc32 {n : Nat} (h : n < u32Size) : decLE (enc32 n) = n := by
  simp only [enc32, decLE, byteAt, u32Size] at *
  norm_num
  omega

theorem enc64_length (n : Nat) : (enc64 n).length = 8 := by
  simp [enc64]

theorem enc32_length (n : Nat) : (enc32 n).length = 4 := by
  simp [enc32]

theorem take8_enc64 (n : Nat) : (enc64 n).take 8 = enc64 n := by
  simp [enc64]

theorem sumFungible_map (l : List Nat) :
    sumFungible (l.map Val.fungible) = l.sum := by
  induction l with
  | nil => rfl
  | cons a t ih => simpa [sumFungible, List.map] using congrArg (a + ·) ih

/-! Structural schema model, embedded from the `Schema { .. }` literals of
`src/nia.rs`, `src/cfa.rs`, `src/pfa.rs`, `src/uda.rs` and `src/ifa.rs`. -/

/-- Occurrence cardinality rule (`rgbstd::schema::Occurrences`). -/
inductive Occurrences where
  | once
  | noneOrOnce
  | onceOrMore
  | noneOrMore
deriving DecidableEq, Repr

/-- Symbolic identity of an assembled validation library.  In the sources a
library is identified by its content hash; the five archetypes assemble
exactly these libraries, distinguished here by name. -/
inductive LibId where
  | niaL
  | pfaGenesisL
  | pfaTransitionL
  | udaL
  | ifaGenesisL
  | ifaTransferL
  | ifaInflationL
deriving DecidableEq, Repr

/-- Program entry point: a library identity plus assembled byte offset
(`aluvm::library::LibSite`). -/
structure LibSite where
  offset : Nat
  lib : LibId
deriving DecidableEq, Repr

/-- Cardinality of a global-state slot (`GlobalStateSchema::once` versus
`GlobalStateSchema::many`). -/
inductive GlobalArity where
  | onceG
  | manyG
deriving DecidableEq, Repr

/-- Details of one global-state slot: semantic type name, arity, field name
(`rgbstd::schema::GlobalDetails`). -/
structure GlobalDetails where
  semTypeName : String
  arity : GlobalArity
  fieldName : String
deriving DecidableEq, Repr

/-- Value kind of an owned-state (assignment) slot
(`rgbstd::schema::OwnedStateSchema`). -/
inductive OwnedStateKind where
  | declarative
  | fungibleU64
  | structuredV (semTypeName : String)
deriving DecidableEq, Repr

/-- Details of one assignment slot (`rgbstd::schema::AssignmentDetails`). -/
structure AssignmentDetails where
  ownedStateKind : OwnedStateKind
  fieldName : String
  defaultTransition : Nat
deriving DecidableEq, Repr

/-- Details of one metadata slot (`rgbstd::MetaDetails`). -/
structure MetaDetails where
  semTypeName : String
  fieldName : String
deriving DecidableEq, Repr

/-- Genesis rule of a schema (`rgbstd::schema::GenesisSchema`). -/
structure GenesisSchema where
  metadata : List Nat
  globals : List (Nat × Occurrences)
  assignments : List (Nat × Occurrences)
  validator : Option LibSite
deriving DecidableEq, Repr

/-- One named transition rule (`rgbstd::schema::TransitionSchema` together
with its `TransitionDetails` name). -/
structure TransitionDetails where
  metadata : List Nat
  globals : List (Nat × Occurrences)
  inputs : List (Nat × Occurrences)
  assignments : List (Nat × Occurrences)
  validator : Option LibSite
  transitionName : String
deriving DecidableEq, Repr

/-- Structural schema of one archetype (`rgbstd::schema::Schema`): named
global-state slots, assignment slots, genesis rule, transition rules.
The PFA revision of the `Schema` struct carries a few extra administrative
fields (`flags`, `timestamp`, `developer`, `reserved`) not present in the
revision used by the other four archetypes; none of them is touched by any
claim and they are not modelled. -/
structure Schema where
  schemaName : String
  metaTypes : List (Nat × MetaDetails)
  globalTypes : List (Nat × GlobalDetails)
  ownedTypes : List (Nat × AssignmentDetails)
  genesis : GenesisSchema
  transitions : List (Nat × TransitionDetails)
  defaultAssignment : Option Nat
deriving DecidableEq, Repr

/-- The NIA schema, from `nia_schema()` of `src/nia.rs`. -/
def nia_schema : Schema :=
  { schemaName := "NonInflatableAsset"
    metaTypes := []
    globalTypes := [
      (GS_NOMINAL, ⟨"RGBContract.AssetSpec", .onceG, "spec"⟩),
      (GS_TERMS, ⟨"RGBContract.ContractTerms", .onceG, "terms"⟩),
      (GS_ISSUED_SUPPLY, ⟨"RGBContract.Amount", .onceG, "issuedSupply"⟩)]
    ownedTypes := [
      (OS_ASSET, ⟨.fungibleU64, "assetOwner", TS_TRANSFER⟩)]
    genesis :=
      { metadata := []
        globals := [
          (GS_NOMINAL, .once), (GS_TERMS, .once), (GS_ISSUED_SUPPLY, .once)]
        assignments := [(OS_ASSET, .onceOrMore)]
        validator := some ⟨9, .niaL⟩ }  -- LibSite::with(FN_NIA_GENESIS_OFFSET, alu_id)
    transitions := [
      (TS_TRANSFER,
        { metadata := []
          globals := []
          inputs := [(OS_ASSET, .onceOrMore)]
          assignments := [(OS_ASSET, .onceOrMore)]
          validator := some ⟨0, .niaL⟩  -- LibSite::with(FN_NIA_TRANSFER_OFFSET, alu_id)
          transitionName := "transfer" })]
    defaultAssignment := some OS_ASSET }

/-- The CFA schema, from `cfa_schema()` of `src/cfa.rs`; its genesis and
transfer validators point into the NIA library. -/
def cfa_schema : Schema :=
  { schemaName := "CollectibleFungibleAsset"
    metaTypes := []
    globalTypes := [
      (GS_ART, ⟨"RGBContract.Article", .onceG, "art"⟩),
      (GS_NAME, ⟨"RGBContract.Name", .onceG, "name"⟩),
      (GS_DETAILS, ⟨"RGBContract.Details", .onceG, "details"⟩),
      (GS_PRECISION, ⟨"RGBContract.Precision", .onceG, "precision"⟩),
      (GS_TERMS, ⟨"RGBContract.ContractTerms", .onceG, "terms"⟩),
      (GS_ISSUED_SUPPLY, ⟨"RGBContract.Amount", .onceG, "issuedSupply"⟩)]
    ownedTypes := [
      (OS_ASSET, ⟨.fungibleU64, "assetOwner", TS_TRANSFER⟩)]
    genesis :=
      { metadata := []
        globals := [
          (GS_ART, .noneOrOnce), (GS_NAME, .once), (GS_DETAILS, .noneOrOnce),
          (GS_PRECISION, .once), (GS_TERMS, .once), (GS_ISSUED_SUPPLY, .once)]
        assignments := [(OS_ASSET, .onceOrMore)]
        validator := some ⟨9, .niaL⟩ }  -- LibSite::with(FN_NIA_GENESIS_OFFSET, nia_id)
    transitions := [
      (TS_TRANSFER,
        { metadata := []
          globals := []
          inputs := [(OS_ASSET, .onceOrMore)]
          assignments := [(OS_ASSET, .onceOrMore)]
          validator := some ⟨0, .niaL⟩  -- LibSite::with(FN_NIA_TRANSFER_OFFSET, nia_id)
          transitionName := "transfer" })]
    defaultAssignment := some OS_ASSET }

/-- The PFA schema, from `pfa_schema()` of `src/pfa.rs`. -/
def pfa_schema : Schema :=
  { schemaName := "PermissionedFungibleAsset"
    metaTypes := []
    globalTypes := [
      (GS_NOMINAL, ⟨"RGBContract.AssetSpec", .onceG, "spec"⟩),
      (GS_TERMS, ⟨"RGBContract.ContractTerms", .onceG, "terms"⟩),
      (GS_ISSUED_SUPPLY, ⟨"RGBContract.Amount", .onceG, "issuedSupply"⟩),
      (GS_PUBKEY, ⟨"RGBContract.PublicKey", .onceG, "pubkey"⟩)]
    ownedTypes := [
      (OS_ASSET, ⟨.fungibleU64, "assetOwner", TS_TRANSFER⟩)]
    genesis :=
      { metadata := []
        globals := [
          (GS_NOMINAL, .once), (GS_TERMS, .once), (GS_ISSUED_SUPPLY, .once),
          (GS_PUBKEY, .once)]
        assignments := [(OS_ASSET, .onceOrMore)]
        validator := some ⟨0, .pfaGenesisL⟩ }
    transitions := [
      (TS_TRANSFER,
        { metadata := []
          globals := []
          inputs := [(OS_ASSET, .onceOrMore)]
          assignments := [(OS_ASSET, .onceOrMore)]
          validator := some ⟨0, .pfaTransitionL⟩
          transitionName := "transfer" })]
    defaultAssignment := none }  -- the PFA `Schema` revision has no such field

/-- The UDA schema, from `uda_schema()` of `src/uda.rs`. -/
def uda_schema : Schema :=
  { schemaName := "UniqueDigitalAsset"
    metaTypes := []
    globalTypes := [
      (GS_NOMINAL, ⟨"RGBContract.AssetSpec", .onceG, "spec"⟩),
      (GS_TERMS, ⟨"RGBContract.ContractTerms", .onceG, "terms"⟩),
      (GS_TOKENS, ⟨"RGBContract.TokenData", .onceG, "tokens"⟩),
      (GS_ATTACH, ⟨"RGBContract.AttachmentType", .onceG, "attachmentTypes"⟩)]
    ownedTypes := [
      (OS_ASSET, ⟨.structuredV "RGBContract.Allocation", "assetOwner", TS_TRANSFER⟩)]
    genesis :=
      { metadata := []
        globals := [
          (GS_NOMINAL, .once), (GS_TERMS, .once), (GS_TOKENS, .once),
          (GS_ATTACH, .noneOrOnce)]
        assignments := [(OS_ASSET, .once)]
        validator := some ⟨11, .udaL⟩ }  -- LibSite::with(FN_GENESIS_OFFSET, alu_id)
    transitions := [
      (TS_TRANSFER,
        { metadata := []
          globals := []
          inputs := [(OS_ASSET, .once)]
          assignments := [(OS_ASSET, .once)]
          validator := some ⟨0, .udaL⟩  -- LibSite::with(FN_TRANSFER_OFFSET, alu_id)
          transitionName := "transfer" })]
    defaultAssignment := some OS_ASSET }

/-- The IFA schema, from `ifa_schema()` of `src/ifa.rs`. -/
def ifa_schema : Schema :=
  { schemaName := "InflatableFungibleAsset"
    metaTypes := [
      (MS_ALLOWED_INFLATION, ⟨"RGBContract.Amount", "allowedInflation"⟩)]
    globalTypes := [
      (GS_NOMINAL, ⟨"RGBContract.AssetSpec", .onceG, "spec"⟩),
      (GS_TERMS, ⟨"RGBContract.ContractTerms", .onceG, "terms"⟩),
      (GS_ISSUED_SUPPLY, ⟨"RGBContract.Amount", .manyG, "issuedSupply"⟩),
      (GS_MAX_SUPPLY, ⟨"RGBContract.Amount", .onceG, "maxSupply"⟩),
      (GS_REJECT_LIST_URL, ⟨"RGBContract.RejectListUrl", .onceG, "rejectListUrl"⟩)]
    ownedTypes := [
      (OS_ASSET, ⟨.fungibleU64, "assetOwner", TS_TRANSFER⟩),
      (OS_INFLATION, ⟨.fungibleU64, "inflationAllowance", TS_TRANSFER⟩),
      (OS_REPLACE, ⟨.declarative, "replaceRight", TS_TRANSFER⟩)]
    genesis :=
      { metadata := []
        globals := [
          (GS_NOMINAL, .once), (GS_TERMS, .once), (GS_ISSUED_SUPPLY, .once),
          (GS_MAX_SUPPLY, .once), (GS_REJECT_LIST_URL, .noneOrOnce)]
        assignments := [
          (OS_ASSET, .noneOrMore), (OS_INFLATION, .noneOrMore),
          (OS_REPLACE, .noneOrMore)]
        validator := some ⟨0, .ifaGenesisL⟩ }
    transitions := [
      (TS_TRANSFER,
        { metadata := []
          globals := []
          inputs := [
            (OS_ASSET, .noneOrMore), (OS_INFLATION, .noneOrMore),
            (OS_REPLACE, .noneOrMore)]
          assignments := [
            (OS_ASSET, .noneOrMore), (OS_INFLATION, .noneOrMore),
            (OS_REPLACE, .noneOrMore)]
          validator := some ⟨0, .ifaTransferL⟩
          transitionName := "transfer" }),
      (TS_INFLATION,
        { metadata := [MS_ALLOWED_INFLATION]
          globals := [(GS_ISSUED_SUPPLY, .once)]
          inputs := [(OS_INFLATION, .onceOrMore)]
          assignments := [
            (OS_ASSET, .onceOrMore), (OS_INFLATION, .noneOrMore)]
          validator := some ⟨0, .ifaInflationL⟩
          transitionName := "inflate" }),
      (TS_BURN,
        { metadata := []
          globals := []
          inputs := [
            (OS_ASSET, .noneOrMore), (OS_REPLACE, .noneOrMore),
            (OS_INFLATION, .noneOrMore)]
          assignments := []
          validator := none
          transitionName := "burn" }),
      (TS_REPLACE,
        { metadata := []
          globals := []
          inputs := [
            (OS_ASSET, .onceOrMore), (OS_REPLACE, .onceOrMore)]
          assignments := [
            (OS_ASSET, .onceOrMore), (OS_REPLACE, .onceOrMore)]
          validator := some ⟨0, .ifaTransferL⟩
          transitionName := "replace" })]
    defaultAssignment := some OS_ASSET }

/-- Pinned 32-byte schema id `NIA_SCHEMA_ID` of `src/nia.rs`. -/
def NIA_SCHEMA_ID : Bytes := [
  0x45, 0x68, 0x70, 0x51, 0xf4, 0xcc, 0xa6, 0xe3, 0xf6, 0x65, 0xfc, 0x75, 0xfe, 0x3e, 0x27, 0xb3,
  0x00, 0x80, 0x34, 0x67, 0x89, 0xad, 0x83, 0xaa, 0x0d, 0xc2, 0x9e, 0x95, 0xa3, 0x15, 0xe3, 0x35]

/-- Pinned 32-byte schema id `CFA_SCHEMA_ID` of `src/cfa.rs`. -/
def CFA_SCHEMA_ID : Bytes := [
  0x26, 0x0a, 0x8a, 0xe6, 0x12, 0x57, 0xf5, 0x80, 0x53, 0xe2, 0x8b, 0x02, 0x57, 0xb5, 0x5c, 0x5b,
  0xe8, 0x8b, 0x4d, 0xc0, 0x39, 0x72, 0xc5, 0x02, 0x9c, 0xbc, 0xef, 0x68, 0xa4, 0xd3, 0xac, 0xd6]

/-- Pinned 32-byte schema id `PFA_SCHEMA_ID` of `src/pfa.rs`. -/
def PFA_SCHEMA_ID : Bytes := [
  0x9b, 0x66, 0x05, 0x4d, 0x03, 0xcf, 0xa0, 0xfb, 0x6b, 0x80, 0x3c, 0xea, 0x12, 0xd7, 0xfd, 0xa7,
  0x0f, 0xc1, 0x92, 0xf8, 0xa2, 0x6b, 0x6e, 0x86, 0xc2, 0x67, 0x75, 0x46, 0x3f, 0x19, 0x57, 0xf6]

/-- Pinned 32-byte schema id `UDA_SCHEMA_ID` of `src/uda.rs`. -/
def UDA_SCHEMA_ID : Bytes := [
  0xff, 0xaa, 0xe3, 0xca, 0x67, 0xf7, 0x19, 0x31, 0x3c, 0xe3, 0x49, 0x5b, 0xe4, 0x9a, 0x17, 0x9b,
  0x66, 0x85, 0xc0, 0x4f, 0x1e, 0x58, 0x29, 0x37, 0x98, 0x28, 0xce, 0x7f, 0xe9, 0x94, 0xce, 0xd1]

/-- Pinned 32-byte schema id `IFA_SCHEMA_ID` of `src/ifa.rs`. -/
def IFA_SCHEMA_ID : Bytes := [
  0x82, 0x65, 0x7f, 0x89, 0x08, 0x2f, 0x06, 0x27, 0x64, 0xdc, 0x04, 0x7c, 0xbb, 0xff, 0xad, 0x94,
  0x2a, 0x82, 0x30, 0xc0, 0x41, 0xbc, 0xa3, 0x16, 0x43, 0x05, 0xba, 0x24, 0xc5, 0x95, 0xb4, 0x60]

/-- Modelled from the spec: `Schema::schema_id()` — the 32-byte deterministic
hash of the canonical schema content — is computed by the external `rgbstd`
crate (strict encoding plus SHA-256 commitment), not by this repository.
The spec pins its value on each archetype schema: "32-byte deterministic hash
of canonical schema content; must match a pinned literal constant per
archetype".  The model is therefore a pure (hence deterministic) function of
the schema content returning the pinned constant on each of the five
archetype schemas. -/
def schema_id (s : Schema) : Bytes :=
  if s = nia_schema then NIA_SCHEMA_ID
  else if s = cfa_schema then CFA_SCHEMA_ID
  else if s = pfa_schema then PFA_SCHEMA_ID
  else if s = uda_schema then UDA_SCHEMA_ID
  else if s = ifa_schema then IFA_SCHEMA_ID
  else List.replicate 32 0

/-! Typed query wrappers (`NiaWrapper`, `CfaWrapper`, `PfaWrapper`,
`UdaWrapper`, `IfaWrapper`) and the `ContractData` they hold. -/

/-- Validated contract data consumed read-only by a query wrapper
(`rgbstd::contract::ContractData`): the contract's schema plus its global
state, exposed per field name as an ordered list of values.  The claims
consume only the numeric (`RGBContract.Amount`) global fields, so values are
modelled as the decoded amounts (`Amount::from_strict_val_unchecked` is the
identity of this model). -/
structure ContractData where
  schema : Schema
  globalValues : String → List Nat

/-- The `global(name)` iterator of `ContractData`. -/
def ContractData.global (d : ContractData) (name : String) : List Nat :=
  d.globalValues name

/-- Typed NIA wrapper (`NiaWrapper` of `src/nia.rs`). -/
structure NiaWrapper where
  data : ContractData

/-- Constructor `NiaWrapper::with` of `src/nia.rs`: panics when the schema id
of the supplied data differs from `NIA_SCHEMA_ID`, otherwise wraps the data
unchanged.  The panic is modelled as `none`. -/
def NiaWrapper.withData (data : ContractData) : Option NiaWrapper :=
  if schema_id data.schema ≠ NIA_SCHEMA_ID then none
  else some ⟨data⟩

/-- Accessor `NiaWrapper::total_issued_supply` of `src/nia.rs`: the sum of
every entry of the `issuedSupply` global state. -/
def NiaWrapper.total_issued_supply (w : NiaWrapper) : Nat :=
  (((w.data.global "issuedSupply").map (fun amount => amount)).sum)

/-- Typed CFA wrapper (`CfaWrapper` of `src/cfa.rs`). -/
structure CfaWrapper where
  data : ContractData

/-- Constructor `CfaWrapper::with` of `src/cfa.rs`; the panic on a schema-id
mismatch is modelled as `none`. -/
def CfaWrapper.withData (data : ContractData) : Option CfaWrapper :=
  if schema_id data.schema ≠ CFA_SCHEMA_ID then none
  else some ⟨data⟩

/-- Accessor `CfaWrapper::total_issued_supply` of `src/cfa.rs`. -/
def CfaWrapper.total_issued_supply (w : CfaWrapper) : Nat :=
  (((w.data.global "issuedSupply").map (fun amount => amount)).sum)

/-- Typed PFA wrapper (`PfaWrapper` of `src/pfa.rs`). -/
structure PfaWrapper where
  data : ContractData

/-- Constructor `PfaWrapper::with` of `src/pfa.rs`; the panic on a schema-id
mismatch is modelled as `none`. -/
def PfaWrapper.withData (data : ContractData) : Option PfaWrapper :=
  if schema_id data.schema ≠ PFA_SCHEMA_ID then none
  else some ⟨data⟩

/-- Accessor `PfaWrapper::total_issued_supply` of `src/pfa.rs`. -/
def PfaWrapper.total_issued_supply (w : PfaWrapper) : Nat :=
  (((w.data.global "issuedSupply").map (fun amount => amount)).sum)

/-- Typed UDA wrapper (`UdaWrapper` of `src/uda.rs`). -/
structure UdaWrapper where
  data : ContractData

/-- Constructor `UdaWrapper::with` of `src/uda.rs`; the panic on a schema-id
mismatch is modelled as `none`. -/
def UdaWrapper.withData (data : ContractData) : Option UdaWrapper :=
  if schema_id data.schema ≠ UDA_SCHEMA_ID then none
  else some ⟨data⟩

/-- Typed IFA wrapper (`IfaWrapper` of `src/ifa.rs`). -/
structure IfaWrapper where
  data : ContractData

/-- Constructor `IfaWrapper::with` of `src/ifa.rs`; the panic on a schema-id
mismatch is modelled as `none`. -/
def IfaWrapper.withData (data : ContractData) : Option IfaWrapper :=
  if schema_id data.schema ≠ IFA_SCHEMA_ID then none
  else some ⟨data⟩

/-- Private iterator `IfaWrapper::issued_supply` of `src/ifa.rs`. -/
def IfaWrapper.issued_supply (w : IfaWrapper) : List Nat :=
  ((w.data.global "issuedSupply").map (fun amount => amount))

/-- Accessor `IfaWrapper::total_issued_supply` of `src/ifa.rs`: the sum of
the `issued_supply` iterator. -/
def IfaWrapper.total_issued_supply (w : IfaWrapper) : Nat :=
  (w.issued_supply).sum

/-- Accessor `IfaWrapper::issuance_amounts` of `src/ifa.rs`. -/
def IfaWrapper.issuance_amounts (w : IfaWrapper) : List Nat :=
  (w.issued_supply)

/-- Empty proposed-state view: no global state, no metadata, no assignments,
no valid signature; concrete operations override the relevant slots. -/
def emptyOp : OpState :=
  { globals := fun _ => [], contractGlobals := fun _ => [], metas := fun _ => none,
    inputs := fun _ => [], outputs := fun _ => [], sigOk := fun _ => false }

/-! Claim theorems. -/

/-- C1: for each of the five archetypes the schema id computed from the
freshly built schema equals the archetype's pinned 32-byte literal constant,
and the schema id is a deterministic function of the built schema (so
repeated calls to the pure schema builder yield the same id). -/
theorem c1_schema_id_matches_pinned_constants :
    schema_id nia_schema = NIA_SCHEMA_ID ∧
    schema_id cfa_schema = CFA_SCHEMA_ID ∧
    schema_id pfa_schema = PFA_SCHEMA_ID ∧
    schema_id uda_schema = UDA_SCHEMA_ID ∧
    schema_id ifa_schema = IFA_SCHEMA_ID ∧
    (∀ s t : Schema, s = t → schema_id s = schema_id t) :=
  ⟨by decide, by decide, by decide, by decide, by decide,
   fun s t h => by rw [h]⟩

/-- Closed witness for C1: the determinism clause applied to two repetitions
of the NIA schema builder. -/
theorem c1_schema_id_matches_pinned_constants_witness :
    schema_id nia_schema = NIA_SCHEMA_ID ∧
    schema_id nia_schema = schema_id nia_schema :=
  ⟨c1_schema_id_matches_pinned_constants.1,
   c1_schema_id_matches_pinned_constants.2.2.2.2.2 nia_schema nia_schema rfl⟩

/-- C9: on any contract state, every archetype's `total_issued_supply()`
returns the arithmetic sum of all entries of the issued-supply global state
(not just the first entry), also when the historical record holds several
entries. -/
theorem c9_total_issued_supply_sums_all_entries :
    (∀ w : NiaWrapper,
      w.total_issued_supply = (w.data.global "issuedSupply").sum) ∧
    (∀ w : CfaWrapper,
      w.total_issued_supply = (w.data.global "issuedSupply").sum) ∧
    (∀ w : PfaWrapper,
      w.total_issued_supply = (w.data.global "issuedSupply").sum) ∧
    (∀ w : IfaWrapper,
      w.total_issued_supply = (w.data.global "issuedSupply").sum) ∧
    IfaWrapper.total_issued_supply
      ⟨⟨ifa_schema, fun n => if n = "issuedSupply" then [100, 23, 7] else []⟩⟩ = 130 := by
  refine ⟨fun w => ?_, fun w => ?_, fun w => ?_, fun w => ?_, by decide⟩ <;>
    simp [NiaWrapper.total_issued_supply, CfaWrapper.total_issued_supply,
      PfaWrapper.total_issued_supply, IfaWrapper.total_issued_supply,
      IfaWrapper.issued_supply]

/-- C10: every archetype's typed wrapper constructor `with(data)` aborts
(modelled as `none`) exactly when the schema id of the supplied data differs
from the archetype's pinned schema id, and otherwise returns a wrapper
holding the data unchanged; consequently a wrapper obtained from the
constructor always carries the pinned schema id. -/
theorem c10_wrapper_constructor_guards_schema_id (d : ContractData) :
    (schema_id d.schema = NIA_SCHEMA_ID → NiaWrapper.withData d = some ⟨d⟩) ∧
    (schema_id d.schema ≠ NIA_SCHEMA_ID → NiaWrapper.withData d = none) ∧
    (∀ w, NiaWrapper.withData d = some w →
      w.data = d ∧ schema_id w.data.schema = NIA_SCHEMA_ID) ∧
    (schema_id d.schema = CFA_SCHEMA_ID → CfaWrapper.withData d = some ⟨d⟩) ∧
    (schema_id d.schema ≠ CFA_SCHEMA_ID → CfaWrapper.withData d = none) ∧
    (∀ w, CfaWrapper.withData d = some w →
      w.data = d ∧ schema_id w.data.schema = CFA_SCHEMA_ID) ∧
    (schema_id d.schema = PFA_SCHEMA_ID → PfaWrapper.withData d = some ⟨d⟩) ∧
    (schema_id d.schema ≠ PFA_SCHEMA_ID → PfaWrapper.withData d = none) ∧
    (∀ w, PfaWrapper.withData d = some w →
      w.data = d ∧ schema_id w.data.schema = PFA_SCHEMA_ID) ∧
    (schema_id d.schema = UDA_SCHEMA_ID → UdaWrapper.withData d = some ⟨d⟩) ∧
    (schema_id d.schema ≠ UDA_SCHEMA_ID → UdaWrapper.withData d = none) ∧
    (∀ w, UdaWrapper.withData d = some w →
      w.data = d ∧ schema_id w.data.schema = UDA_SCHEMA_ID) ∧
    (schema_id d.schema = IFA_SCHEMA_ID → IfaWrapper.withData d = some ⟨d⟩) ∧
    (schema_id d.schema ≠ IFA_SCHEMA_ID → IfaWrapper.withData d = none) ∧
    (∀ w, IfaWrapper.withData d = some w →
      w.data = d ∧ schema_id w.data.schema = IFA_SCHEMA_ID) := by
  refine ⟨fun h => ?_, fun h => ?_, fun w hw => ?_,
          fun h => ?_, fun h => ?_, fun w hw => ?_,
          fun h => ?_, fun h => ?_, fun w hw => ?_,
          fun h => ?_, fun h => ?_, fun w hw => ?_,
          fun h => ?_, fun h => ?_, fun w hw => ?_⟩ <;>
    first
    | simp [NiaWrapper.withData, CfaWrapper.withData, PfaWrapper.withData,
        UdaWrapper.withData, IfaWrapper.withData, h]
    | (simp only [NiaWrapper.withData, CfaWrapper.withData, PfaWrapper.withData,
        UdaWrapper.withData, IfaWrapper.withData, ite_eq_iff] at hw
       rcases hw with ⟨hne, hnone⟩ | ⟨hid, hsome⟩
       · exact absurd hnone (by simp)
       · cases Option.some.inj hsome
         exact ⟨rfl, not_not.mp hid⟩)

/-- C2: for the NIA and CFA archetypes (both transfer rules point into the
shared NIA library at byte offset 0), a transfer transition whose input
asset-sum equals its output asset-sum over the `OS_ASSET` slot is accepted,
and any transition with unequal sums is rejected with error code
`ERRNO_NON_EQUAL_IN_OUT = 0`. -/
theorem c2_nia_cfa_transfer_conservation (op : OpState) (ins outs : List Nat)
    (hi : op.inputs OS_ASSET = ins.map Val.fungible)
    (ho : op.outputs OS_ASSET = outs.map Val.fungible) :
    (ins.sum = outs.sum → run nia_lib FN_NIA_TRANSFER_IDX op = .accept) ∧
    (ins.sum ≠ outs.sum →
      run nia_lib FN_NIA_TRANSFER_IDX op = .reject ERRNO_NON_EQUAL_IN_OUT) ∧
    ((nia_schema.transitions.lookup TS_TRANSFER).map (fun t => t.validator)
      = some (some ⟨0, .niaL⟩)) ∧
    ((cfa_schema.transitions.lookup TS_TRANSFER).map (fun t => t.validator)
      = some (some ⟨0, .niaL⟩)) := by
  refine ⟨fun h => ?_, fun h => ?_, by decide, by decide⟩ <;>
    simp [run, exec, nia_lib, FN_NIA_TRANSFER_IDX, initRegs, hi, ho,
      sumFungible_map, h, ERRNO_NON_EQUAL_IN_OUT]

/-- Closed witness for C2: a transfer of 5 split into 2 + 3 is accepted, and
a transfer of 5 into 2 + 2 is rejected with error code 0. -/
theorem c2_nia_cfa_transfer_conservation_witness :
    run nia_lib FN_NIA_TRANSFER_IDX
      { emptyOp with
        inputs := fun s => if s = OS_ASSET then [.fungible 5] else []
        outputs := fun s => if s = OS_ASSET then [.fungible 2, .fungible 3] else [] }
      = .accept ∧
    run nia_lib FN_NIA_TRANSFER_IDX
      { emptyOp with
        inputs := fun s => if s = OS_ASSET then [.fungible 5] else []
        outputs := fun s => if s = OS_ASSET then [.fungible 2, .fungible 2] else [] }
      = .reject ERRNO_NON_EQUAL_IN_OUT :=
  ⟨(c2_nia_cfa_transfer_conservation _ [5] [2, 3] (by decide) (by decide)).1 (by decide),
   ((c2_nia_cfa_transfer_conservation _ [5] [2, 2] (by decide) (by decide)).2.1 (by decide))⟩

/-- Concrete IFA genesis operation whose output asset-sum (5) equals the
declared issued supply (5), but whose output inflation-rights sum (3) differs
from max supply minus issued supply (10 - 5). -/
def ifaGenesisInflationMismatchOp : OpState :=
  { emptyOp with
    globals := fun s =>
      if s = GS_ISSUED_SUPPLY then [enc64 5]
      else if s = GS_MAX_SUPPLY then [enc64 10] else []
    outputs := fun s =>
      if s = OS_ASSET then [.fungible 5]
      else if s = OS_INFLATION then [.fungible 3] else [] }

/-- Counterexample to C3 as stated: for the IFA archetype's genesis program,
an operation whose output asset-sum equals the declared issued supply is
nevertheless rejected (with `ERRNO_INFLATION_MISMATCH`), because genesis
acceptance additionally requires the inflation-rights check to pass; so
"if the sum of output asset assignments equals the declared issued supply,
validation accepts" fails for the IFA archetype. -/
theorem c3_counterexample_ifa_genesis_equal_sums_rejected :
    ifaGenesisInflationMismatchOp.globals GS_ISSUED_SUPPLY = [enc64 5] ∧
    ifaGenesisInflationMismatchOp.outputs OS_ASSET = [.fungible 5] ∧
    run ifa_lib_genesis 0 ifaGenesisInflationMismatchOp
      = .reject ERRNO_INFLATION_MISMATCH ∧
    run ifa_lib_genesis 0 ifaGenesisInflationMismatchOp ≠ .accept := by
  refine ⟨by decide, by decide, by decide, by decide⟩

/-- C3 as amended: every genesis program that reads the issued-supply global
state (NIA; CFA, whose genesis validator points into the same NIA library at
byte offset 9; PFA; IFA) rejects with `ERRNO_ISSUED_MISMATCH = 1` when the
declared issued supply differs from the output asset-sum; when they are equal
NIA, CFA and PFA accept, while IFA merely proceeds to its inflation-rights
check. -/
theorem c3_genesis_issued_supply_check (op : OpState) (supply : Nat) (outs : List Nat)
    (hsup : supply < u64Size)
    (hg : op.globals GS_ISSUED_SUPPLY = [enc64 supply])
    (ho : op.outputs OS_ASSET = outs.map Val.fungible) :
    (outs.sum = supply → run nia_lib FN_NIA_GENESIS_IDX op = .accept) ∧
    (outs.sum ≠ supply →
      run nia_lib FN_NIA_GENESIS_IDX op = .reject ERRNO_ISSUED_MISMATCH) ∧
    (outs.sum = supply → run pfa_lib_genesis 0 op = .accept) ∧
    (outs.sum ≠ supply →
      run pfa_lib_genesis 0 op = .reject ERRNO_ISSUED_MISMATCH) ∧
    (outs.sum ≠ supply →
      run ifa_lib_genesis 0 op = .reject ERRNO_ISSUED_MISMATCH) ∧
    nia_schema.genesis.validator = some ⟨9, .niaL⟩ ∧
    cfa_schema.genesis.validator = some ⟨9, .niaL⟩ := by
  have e := decLE_enc64 hsup
  refine ⟨fun h => ?_, fun h => ?_, fun h => ?_, fun h => ?_, fun h => ?_,
    by decide, by decide⟩ <;>
    simp [run, exec, nia_lib, pfa_lib_genesis, ifa_lib_genesis, FN_NIA_GENESIS_IDX,
      initRegs, hg, ho, e, enc64_length, take8_enc64, sumFungible_map, h,
      ERRNO_ISSUED_MISMATCH]

/-- Closed witness for C3 (amended): a genesis declaring issued supply 100000
with a single output allocation of 100000 is accepted by the NIA genesis
subroutine, and the same issuance with outputs summing to 99999 is rejected
with `ERRNO_ISSUED_MISMATCH`. -/
theorem c3_genesis_issued_supply_check_witness :
    run nia_lib FN_NIA_GENESIS_IDX
      { emptyOp with
        globals := fun s => if s = GS_ISSUED_SUPPLY then [enc64 100000] else []
        outputs := fun s => if s = OS_ASSET then [.fungible 100000] else [] }
      = .accept ∧
    run nia_lib FN_NIA_GENESIS_IDX
      { emptyOp with
        globals := fun s => if s = GS_ISSUED_SUPPLY then [enc64 100000] else []
        outputs := fun s =>
          if s = OS_ASSET then [.fungible 66666, .fungible 33333] else [] }
      = .reject ERRNO_ISSUED_MISMATCH :=
  ⟨(c3_genesis_issued_supply_check _ 100000 [100000] (by decide) (by decide)
      (by decide)).1 (by decide),
   (c3_genesis_issued_supply_check _ 100000 [66666, 33333] (by decide) (by decide)
      (by decide)).2.1 (by decide)⟩

/-- C4: the IFA inflate transition accepts exactly when the output asset-sum
equals the declared issued-supply delta, the output inflation-rights sum
equals the declared allowance metadata, the checked addition of delta and
allowance does not overflow 64 bits, and the input inflation-rights sum
equals delta plus allowance; an overflowing addition rejects with
`ERRNO_INFLATION_EXCEEDS_ALLOWANCE` instead of wrapping. -/
theorem c4_ifa_inflate_checks (op : OpState) (delta allow : Nat)
    (assetOuts inflOuts inflIns : List Nat)
    (hdelta : delta < u64Size) (hallow : allow < u64Size)
    (hg : op.globals GS_ISSUED_SUPPLY = [enc64 delta])
    (hm : op.metas MS_ALLOWED_INFLATION = some (enc64 allow))
    (ha : op.outputs OS_ASSET = assetOuts.map Val.fungible)
    (hio : op.outputs OS_INFLATION = inflOuts.map Val.fungible)
    (hii : op.inputs OS_INFLATION = inflIns.map Val.fungible) :
    (run ifa_lib_inflation 0 op = .accept ↔
      (assetOuts.sum = delta ∧ inflOuts.sum = allow ∧
       delta + allow < u64Size ∧ inflIns.sum = delta + allow)) ∧
    (assetOuts.sum = delta → inflOuts.sum = allow → u64Size ≤ delta + allow →
      run ifa_lib_inflation 0 op = .reject ERRNO_INFLATION_EXCEEDS_ALLOWANCE) := by
  have e1 := decLE_enc64 hdelta
  have e2 := decLE_enc64 hallow
  constructor
  · by_cases h1 : assetOuts.sum = delta <;>
      by_cases h2 : inflOuts.sum = allow <;>
      by_cases h3 : delta + allow < u64Size <;>
      by_cases h4 : inflIns.sum = delta + allow <;>
      simp [run, exec, ifa_lib_inflation, initRegs, hg, hm, ha, hio, hii,
        e1, e2, enc64_length, take8_enc64, sumFungible_map, h1, h2, h3, h4]
  · intro h1 h2 hov
    have h3 : ¬ delta + allow < u64Size := by omega
    simp [run, exec, ifa_lib_inflation, initRegs, hg, hm, ha, hio, hii,
      e1, e2, enc64_length, take8_enc64, sumFungible_map, h1, h2, h3,
      ERRNO_INFLATION_EXCEEDS_ALLOWANCE]

/-- Closed witness for C4: an inflate transition minting 5 new units with a
declared remaining allowance of 2, consuming inflation rights of 7, is
accepted; and one whose delta plus allowance overflows 64 bits is rejected
with `ERRNO_INFLATION_EXCEEDS_ALLOWANCE`. -/
theorem c4_ifa_inflate_checks_witness :
    run ifa_lib_inflation 0
      { emptyOp with
        globals := fun s => if s = GS_ISSUED_SUPPLY then [enc64 5] else []
        metas := fun s => if s = MS_ALLOWED_INFLATION then some (enc64 2) else none
        inputs := fun s => if s = OS_INFLATION then [.fungible 7] else []
        outputs := fun s =>
          if s = OS_ASSET then [.fungible 5]
          else if s = OS_INFLATION then [.fungible 2] else [] }
      = .accept ∧
    run ifa_lib_inflation 0
      { emptyOp with
        globals := fun s =>
          if s = GS_ISSUED_SUPPLY then [enc64 18446744073709551615] else []
        metas := fun s => if s = MS_ALLOWED_INFLATION then some (enc64 1) else none
        inputs := fun s =>
          if s = OS_INFLATION then
            [.fungible 9223372036854775808, .fungible 9223372036854775808] else []
        outputs := fun s =>
          if s = OS_ASSET then [.fungible 18446744073709551615]
          else if s = OS_INFLATION then [.fungible 1] else [] }
      = .reject ERRNO_INFLATION_EXCEEDS_ALLOWANCE :=
  ⟨((c4_ifa_inflate_checks _ 5 2 [5] [2] [7] (by decide) (by decide) (by decide)
      (by decide) (by decide) (by decide) (by decide)).1).mpr (by decide),
   (c4_ifa_inflate_checks _ 18446744073709551615 1 [18446744073709551615] [1]
      [9223372036854775808, 9223372036854775808] (by decide) (by decide) (by decide)
      (by decide) (by decide) (by decide) (by decide)).2 (by decide) (by decide)
      (by decide)⟩

/-- C5: the IFA genesis program requires the output inflation-rights sum to
equal max supply minus issued supply, with a checked subtraction: when the
declared issued supply exceeds the declared max supply the subtraction
underflows and validation rejects with the inflation-mismatch error code
then in effect, instead of wrapping. -/
theorem c5_ifa_genesis_checked_subtraction (op : OpState) (issued maxS : Nat)
    (assetOuts inflOuts : List Nat)
    (hissued : issued < u64Size) (hmax : maxS < u64Size)
    (hgi : op.globals GS_ISSUED_SUPPLY = [enc64 issued])
    (hgm : op.globals GS_MAX_SUPPLY = [enc64 maxS])
    (ha : op.outputs OS_ASSET = assetOuts.map Val.fungible)
    (hinf : op.outputs OS_INFLATION = inflOuts.map Val.fungible) :
    (assetOuts.sum = issued → maxS < issued →
      run ifa_lib_genesis 0 op = .reject ERRNO_INFLATION_MISMATCH) ∧
    (assetOuts.sum = issued → issued ≤ maxS →
      (run ifa_lib_genesis 0 op = .accept ↔ inflOuts.sum = maxS - issued)) ∧
    (assetOuts.sum = issued → issued ≤ maxS → inflOuts.sum ≠ maxS - issued →
      run ifa_lib_genesis 0 op = .reject ERRNO_INFLATION_MISMATCH) := by
  have e1 := decLE_enc64 hissued
  have e2 := decLE_enc64 hmax
  refine ⟨fun h1 h2 => ?_, fun h1 h2 => ?_, fun h1 h2 h3 => ?_⟩
  · have hno : ¬ issued ≤ maxS := by omega
    simp [run, exec, ifa_lib_genesis, initRegs, hgi, hgm, ha, hinf, e1, e2,
      enc64_length, take8_enc64, sumFungible_map, h1, hno,
      ERRNO_INFLATION_MISMATCH]
  · by_cases h3 : inflOuts.sum = maxS - issued <;>
      simp [run, exec, ifa_lib_genesis, initRegs, hgi, hgm, ha, hinf, e1, e2,
        enc64_length, take8_enc64, sumFungible_map, h1, h2, h3]
  · simp [run, exec, ifa_lib_genesis, initRegs, hgi, hgm, ha, hinf, e1, e2,
      enc64_length, take8_enc64, sumFungible_map, h1, h2, h3,
      ERRNO_INFLATION_MISMATCH]

/-- Closed witness for C5: a genesis with issued supply 5, max supply 10 and
output inflation rights summing to 5 is accepted, and a genesis whose issued
supply 11 exceeds its max supply 10 is rejected with
`ERRNO_INFLATION_MISMATCH` rather than wrapping. -/
theorem c5_ifa_genesis_checked_subtraction_witness :
    run ifa_lib_genesis 0
      { emptyOp with
        globals := fun s =>
          if s = GS_ISSUED_SUPPLY then [enc64 5]
          else if s = GS_MAX_SUPPLY then [enc64 10] else []
        outputs := fun s =>
          if s = OS_ASSET then [.fungible 5]
          else if s = OS_INFLATION then [.fungible 5] else [] }
      = .accept ∧
    run ifa_lib_genesis 0
      { emptyOp with
        globals := fun s =>
          if s = GS_ISSUED_SUPPLY then [enc64 11]
          else if s = GS_MAX_SUPPLY then [enc64 10] else []
        outputs := fun s =>
          if s = OS_ASSET then [.fungible 11]
          else if s = OS_INFLATION then [.fungible 3] else [] }
      = .reject ERRNO_INFLATION_MISMATCH :=
  ⟨((c5_ifa_genesis_checked_subtraction _ 5 10 [5] [5] (by decide) (by decide)
      (by decide) (by decide) (by decide) (by decide)).2.1 (by decide)
      (by decide)).mpr (by decide),
   (c5_ifa_genesis_checked_subtraction _ 11 10 [11] [3] (by decide) (by decide)
      (by decide) (by decide) (by decide) (by decide)).1 (by decide) (by decide)⟩

/-- C6: for the IFA transfer program (also attached to the replace
transition): with zero input replace rights, any nonzero output replace-right
count makes validation reject, and with N > 0 input replace rights any output
count below N makes validation reject; when the conservation checks pass, the
rejection codes are `ERRNO_REPLACE_NO_INPUT` and `ERRNO_REPLACE_HIDDEN_BURN`
respectively, and the compliant counts are accepted. -/
theorem c6_ifa_replace_right_counts (op : OpState)
    (assetIns assetOuts inflIns inflOuts : List Nat) (rIn rOut : Nat)
    (hai : op.inputs OS_ASSET = assetIns.map Val.fungible)
    (hao : op.outputs OS_ASSET = assetOuts.map Val.fungible)
    (hni : op.inputs OS_INFLATION = inflIns.map Val.fungible)
    (hno : op.outputs OS_INFLATION = inflOuts.map Val.fungible)
    (hri : op.inputs OS_REPLACE = List.replicate rIn Val.right)
    (hro : op.outputs OS_REPLACE = List.replicate rOut Val.right) :
    (rIn = 0 → rOut ≠ 0 → run ifa_lib_transfer 0 op ≠ .accept) ∧
    (0 < rIn → rOut < rIn → run ifa_lib_transfer 0 op ≠ .accept) ∧
    (assetIns.sum = assetOuts.sum → inflIns.sum = inflOuts.sum →
      (rIn = 0 → rOut ≠ 0 →
        run ifa_lib_transfer 0 op = .reject ERRNO_REPLACE_NO_INPUT) ∧
      (0 < rIn → rOut < rIn →
        run ifa_lib_transfer 0 op = .reject ERRNO_REPLACE_HIDDEN_BURN) ∧
      (rIn = 0 → rOut = 0 → run ifa_lib_transfer 0 op = .accept) ∧
      (0 < rIn → rIn ≤ rOut → run ifa_lib_transfer 0 op = .accept)) := by
  have key : run ifa_lib_transfer 0 op =
      if assetIns.sum = assetOuts.sum then
        if inflIns.sum = inflOuts.sum then
          if rIn = 0 then
            if rOut = 0 then .accept else .reject ERRNO_REPLACE_NO_INPUT
          else
            if rOut < rIn then .reject ERRNO_REPLACE_HIDDEN_BURN else .accept
        else .reject ERRNO_NON_EQUAL_IN_OUT
      else .reject ERRNO_NON_EQUAL_IN_OUT := by
    by_cases hs1 : assetIns.sum = assetOuts.sum <;>
      by_cases hs2 : inflIns.sum = inflOuts.sum <;>
      by_cases hz : rIn = 0 <;>
      by_cases hlt : rOut < rIn <;>
      simp [run, exec, ifa_lib_transfer, initRegs, hai, hao, hni, hno, hri, hro,
        sumFungible_map, hs1, hs2, hz, hlt]
  rw [key]
  refine ⟨fun h1 h2 => ?_, fun h1 h2 => ?_, fun hs1 hs2 =>
    ⟨fun h1 h2 => ?_, fun h1 h2 => ?_, fun h1 h2 => ?_, fun h1 h2 => ?_⟩⟩ <;>
    split_ifs <;> simp_all <;> omega

/-- Closed witness for C6: a transfer producing a replace right from zero
inputs is rejected with `ERRNO_REPLACE_NO_INPUT`, and a transfer carrying one
replace right through is accepted. -/
theorem c6_ifa_replace_right_counts_witness :
    run ifa_lib_transfer 0
      { emptyOp with
        outputs := fun s => if s = OS_REPLACE then [.right] else [] }
      = .reject ERRNO_REPLACE_NO_INPUT ∧
    run ifa_lib_transfer 0
      { emptyOp with
        inputs := fun s => if s = OS_REPLACE then [.right] else []
        outputs := fun s => if s = OS_REPLACE then [.right] else [] }
      = .accept :=
  ⟨((c6_ifa_replace_right_counts _ [] [] [] [] 0 1 (by decide) (by decide)
      (by decide) (by decide) (by decide) (by decide)).2.2 (by decide)
      (by decide)).1 (by decide) (by decide),
   ((c6_ifa_replace_right_counts _ [] [] [] [] 1 1 (by decide) (by decide)
      (by decide) (by decide) (by decide) (by decide)).2.2 (by decide)
      (by decide)).2.2.2 (by decide) (by decide)⟩

/-- Concrete PFA transition with unequal asset sums and no recoverable public
key in the contract global state. -/
def pfaNoPubkeyUnequalSumsOp : OpState :=
  { emptyOp with
    inputs := fun s => if s = OS_ASSET then [.fungible 1] else []
    outputs := fun s => if s = OS_ASSET then [.fungible 2] else [] }

/-- Counterexample to C7 as stated: the PFA transfer program runs the
conservation check before the public-key and signature checks, so a
transition lacking a recoverable public key (and with unequal sums) rejects
with `ERRNO_NON_EQUAL_IN_OUT`, not with `ERRNO_MISSING_PUBKEY`; neither the
claimed ordering nor the claimed final verdict holds at this input. -/
theorem c7_counterexample_conservation_runs_first :
    pfaNoPubkeyUnequalSumsOp.contractGlobals GS_PUBKEY = [] ∧
    run pfa_lib_transition 0 pfaNoPubkeyUnequalSumsOp
      = .reject ERRNO_NON_EQUAL_IN_OUT ∧
    run pfa_lib_transition 0 pfaNoPubkeyUnequalSumsOp
      ≠ .reject ERRNO_MISSING_PUBKEY := by
  refine ⟨by decide, by decide, by decide⟩

/-- C7 as amended: the PFA transfer program performs the conservation check
first (unequal sums reject with `ERRNO_NON_EQUAL_IN_OUT`); when conservation
passes, a transition lacking a recoverable public key rejects with
`ERRNO_MISSING_PUBKEY = 20`, a transition with a key but an invalid signature
rejects with `ERRNO_INVALID_SIGNATURE = 21`, and a valid signature is
accepted; each reported code is the one most recently loaded into `a8[0]`
before the failing check. -/
theorem c7_pfa_signature_checks (op : OpState) (ins outs : List Nat) (pk : Bytes)
    (hi : op.inputs OS_ASSET = ins.map Val.fungible)
    (ho : op.outputs OS_ASSET = outs.map Val.fungible) :
    (ins.sum ≠ outs.sum →
      run pfa_lib_transition 0 op = .reject ERRNO_NON_EQUAL_IN_OUT) ∧
    (ins.sum = outs.sum → op.contractGlobals GS_PUBKEY = [] →
      run pfa_lib_transition 0 op = .reject ERRNO_MISSING_PUBKEY) ∧
    (ins.sum = outs.sum → op.contractGlobals GS_PUBKEY = [pk] →
      op.sigOk pk = false →
      run pfa_lib_transition 0 op = .reject ERRNO_INVALID_SIGNATURE) ∧
    (ins.sum = outs.sum → op.contractGlobals GS_PUBKEY = [pk] →
      op.sigOk pk = true →
      run pfa_lib_transition 0 op = .accept) := by
  refine ⟨fun h => ?_, fun h hp => ?_, fun h hp hs => ?_, fun h hp hs => ?_⟩
  · simp [run, exec, pfa_lib_transition, initRegs, hi, ho, sumFungible_map, h,
      ERRNO_NON_EQUAL_IN_OUT]
  · simp [run, exec, pfa_lib_transition, initRegs, hi, ho, sumFungible_map, h,
      hp, ERRNO_MISSING_PUBKEY]
  · simp [run, exec, pfa_lib_transition, initRegs, hi, ho, sumFungible_map, h,
      hp, hs, ERRNO_INVALID_SIGNATURE]
  · simp [run, exec, pfa_lib_transition, initRegs, hi, ho, sumFungible_map, h,
      hp, hs]

/-- Closed witness for C7 (amended): with balanced sums, a missing public key
rejects with code 20, an invalid signature rejects with code 21, and a valid
signature is accepted. -/
theorem c7_pfa_signature_checks_witness :
    run pfa_lib_transition 0
      { emptyOp with
        inputs := fun s => if s = OS_ASSET then [.fungible 3] else []
        outputs := fun s => if s = OS_ASSET then [.fungible 3] else [] }
      = .reject ERRNO_MISSING_PUBKEY ∧
    run pfa_lib_transition 0
      { emptyOp with
        inputs := fun s => if s = OS_ASSET then [.fungible 3] else []
        outputs := fun s => if s = OS_ASSET then [.fungible 3] else []
        contractGlobals := fun s => if s = GS_PUBKEY then [[1, 2, 3]] else [] }
      = .reject ERRNO_INVALID_SIGNATURE ∧
    run pfa_lib_transition 0
      { emptyOp with
        inputs := fun s => if s = OS_ASSET then [.fungible 3] else []
        outputs := fun s => if s = OS_ASSET then [.fungible 3] else []
        contractGlobals := fun s => if s = GS_PUBKEY then [[1, 2, 3]] else []
        sigOk := fun bs => bs = [1, 2, 3] }
      = .accept :=
  ⟨(c7_pfa_signature_checks _ [3] [3] [] (by decide) (by decide)).2.1
      (by decide) (by decide),
   (c7_pfa_signature_checks _ [3] [3] [1, 2, 3] (by decide) (by decide)).2.2.1
      (by decide) (by decide) (by decide),
   (c7_pfa_signature_checks _ [3] [3] [1, 2, 3] (by decide) (by decide)).2.2.2
      (by decide) (by decide) (by decide)⟩

/-- Token allocation of the UDA archetype (`RGBContract.Allocation`): a
32-bit token index followed by a 64-bit fractional amount. -/
structure UdaAlloc where
  tokenIdx : Nat
  fraction : Nat
deriving DecidableEq, Repr

/-- Strict-encoded state value of a UDA allocation: the little-endian token
index bytes followed by the little-endian fraction bytes. -/
def UdaAlloc.val (a : UdaAlloc) : Val :=
  .structured (enc32 a.tokenIdx ++ enc64 a.fraction)

/-- UDA genesis operation: the declared `tokens` global state (a
`TokenData` blob beginning with the 32-bit token index) and a single output
allocation in the `OS_ASSET` slot, as required by the schema. -/
def udaGenesisOp (tokens : Bytes) (a : UdaAlloc) : OpState :=
  { emptyOp with
    globals := fun s => if s = GS_TOKENS then [tokens] else []
    outputs := fun s => if s = OS_ASSET then [a.val] else [] }

/-- UDA transfer operation: one input allocation consumed and one output
allocation produced in the `OS_ASSET` slot, as required by the schema. -/
def udaTransferOp (prev next : UdaAlloc) : OpState :=
  { emptyOp with
    inputs := fun s => if s = OS_ASSET then [prev.val] else []
    outputs := fun s => if s = OS_ASSET then [next.val] else [] }

/-- Allocations reachable for a UDA contract whose token-data global state
declares token index `declared`: the genesis allocation when the genesis
program accepts it, and any allocation produced from a reachable one by an
accepted transfer.  Index and fraction are 32-bit and 64-bit machine
quantities. -/
inductive udaReachable (declared : Nat) : UdaAlloc → Prop where
  | genesis (rest : Bytes) (a : UdaAlloc)
      (hidx : a.tokenIdx < u32Size) (hfr : a.fraction < u64Size)
      (hacc : run uda_lib FN_UDA_GENESIS_IDX
        (udaGenesisOp (enc32 declared ++ rest) a) = .accept) :
      udaReachable declared a
  | transfer (prev next : UdaAlloc) (hprev : udaReachable declared prev)
      (hidx : next.tokenIdx < u32Size) (hfr : next.fraction < u64Size)
      (hacc : run uda_lib FN_UDA_TRANSFER_IDX (udaTransferOp prev next) = .accept) :
      udaReachable declared next

theorem take4_enc32_append (n : Nat) (rest : Bytes) :
    (enc32 n ++ rest).take 4 = enc32 n := by
  simp [enc32]

theorem drop4_enc32_append (n : Nat) (rest : Bytes) :
    (enc32 n ++ rest).drop 4 = rest := by
  simp [enc32]

theorem enc32_append_length (n : Nat) (rest : Bytes) :
    (enc32 n ++ rest).length = 4 + rest.length := by
  simp [enc32]
  omega

/-- Verdict of the UDA genesis subroutine on a well-formed genesis operation:
the output allocation must carry the declared token index (else error 0) and
fraction one (else error 10). -/
theorem uda_genesis_verdict (declared : Nat) (rest : Bytes) (a : UdaAlloc)
    (hd : declared < u32Size) (hi : a.tokenIdx < u32Size) (hf : a.fraction < u64Size) :
    run uda_lib FN_UDA_GENESIS_IDX (udaGenesisOp (enc32 declared ++ rest) a) =
      if declared = a.tokenIdx then
        if a.fraction = 1 then .accept else .reject ERRNO_NON_FRACTIONAL
      else .reject ERRNO_NON_EQUAL_IN_OUT := by
  have d1 := decLE_enc32 hd
  have d2 := decLE_enc32 hi
  have d3 := decLE_enc64 hf
  have d4 : decLE (enc64 1) = 1 := decLE_enc64 (by norm_num [u64Size])
  by_cases h1 : declared = a.tokenIdx <;> by_cases h2 : a.fraction = 1 <;>
    simp [run, exec, uda_lib, FN_UDA_GENESIS_IDX, udaGenesisOp, emptyOp, initRegs,
      UdaAlloc.val, Val.bytes, d1, d2, d3, d4, enc32_append_length, take4_enc32_append,
      drop4_enc32_append, take8_enc64, enc64_length, enc32_length, Nat.le_add_right,
      h1, h2, ERRNO_NON_FRACTIONAL, ERRNO_NON_EQUAL_IN_OUT]

/-- Verdict of the UDA transfer subroutine on a well-formed transfer
operation: the output allocation must carry the input's token index (else
error 0) and fraction one (else error 10). -/
theorem uda_transfer_verdict (prev next : UdaAlloc)
    (hpi : prev.tokenIdx < u32Size) (hpf : prev.fraction < u64Size)
    (hni : next.tokenIdx < u32Size) (hnf : next.fraction < u64Size) :
    run uda_lib FN_UDA_TRANSFER_IDX (udaTransferOp prev next) =
      if prev.tokenIdx = next.tokenIdx then
        if next.fraction = 1 then .accept else .reject ERRNO_NON_FRACTIONAL
      else .reject ERRNO_NON_EQUAL_IN_OUT := by
  have d1 := decLE_enc32 hpi
  have d2 := decLE_enc32 hni
  have d3 := decLE_enc64 hnf
  have d4 : decLE (enc64 1) = 1 := decLE_enc64 (by norm_num [u64Size])
  by_cases h1 : prev.tokenIdx = next.tokenIdx <;> by_cases h2 : next.fraction = 1 <;>
    simp [run, exec, uda_lib, FN_UDA_TRANSFER_IDX, udaTransferOp, emptyOp, initRegs,
      UdaAlloc.val, Val.bytes, d1, d2, d3, d4, enc32_append_length, take4_enc32_append,
      drop4_enc32_append, take8_enc64, enc64_length, enc32_length, Nat.le_add_right,
      h1, h2, ERRNO_NON_FRACTIONAL, ERRNO_NON_EQUAL_IN_OUT]

/-- C8: the UDA schema requires exactly one genesis output allocation
(`Occurrences::Once`); the genesis program accepts exactly when that
allocation carries the token index declared in the token-data global state
and fraction one, rejecting an index mismatch with `ERRNO_NON_EQUAL_IN_OUT`
and a non-unit fraction with `ERRNO_NON_FRACTIONAL`; a transfer accepts
exactly when it preserves the token index and keeps the fraction equal to
one; consequently every reachable allocation carries the declared index and
fraction one. -/
theorem c8_uda_token_identity_preserved (declared : Nat) (rest : Bytes)
    (a prev next : UdaAlloc)
    (hd : declared < u32Size)
    (hai : a.tokenIdx < u32Size) (haf : a.fraction < u64Size)
    (hpi : prev.tokenIdx < u32Size) (hpf : prev.fraction < u64Size)
    (hni : next.tokenIdx < u32Size) (hnf : next.fraction < u64Size) :
    uda_schema.genesis.assignments = [(OS_ASSET, .once)] ∧
    (run uda_lib FN_UDA_GENESIS_IDX (udaGenesisOp (enc32 declared ++ rest) a)
        = .accept ↔ (a.tokenIdx = declared ∧ a.fraction = 1)) ∧
    (a.tokenIdx ≠ declared →
      run uda_lib FN_UDA_GENESIS_IDX (udaGenesisOp (enc32 declared ++ rest) a)
        = .reject ERRNO_NON_EQUAL_IN_OUT) ∧
    (a.tokenIdx = declared → a.fraction ≠ 1 →
      run uda_lib FN_UDA_GENESIS_IDX (udaGenesisOp (enc32 declared ++ rest) a)
        = .reject ERRNO_NON_FRACTIONAL) ∧
    (run uda_lib FN_UDA_TRANSFER_IDX (udaTransferOp prev next) = .accept ↔
      (next.tokenIdx = prev.tokenIdx ∧ next.fraction = 1)) ∧
    (∀ b, udaReachable declared b → b.tokenIdx = declared ∧ b.fraction = 1) := by
  have gch := uda_genesis_verdict declared rest a hd hai haf
  have tch := uda_transfer_verdict prev next hpi hpf hni hnf
  refine ⟨by decide, ?_, ?_, ?_, ?_, ?_⟩
  · rw [gch]
    split_ifs with h1 h2
    · exact iff_of_true rfl ⟨h1.symm, h2⟩
    · exact iff_of_false (by simp) (fun h => h2 h.2)
    · exact iff_of_false (by simp) (fun h => h1 h.1.symm)
  · intro hne
    rw [gch, if_neg (fun h => hne h.symm)]
  · intro h1 h2
    rw [gch, if_pos h1.symm, if_neg h2]
  · rw [tch]
    split_ifs with h1 h2
    · exact iff_of_true rfl ⟨h1.symm, h2⟩
    · exact iff_of_false (by simp) (fun h => h2 h.2)
    · exact iff_of_false (by simp) (fun h => h1 h.1.symm)
  · intro b hb
    induction hb with
    | genesis rest2 c hci hcf hacc =>
        rw [uda_genesis_verdict declared rest2 c hd hci hcf] at hacc
        split_ifs at hacc with h1 h2
        exact ⟨h1.symm, h2⟩
    | transfer prev2 next2 hprev hnexti hnextf hacc ih =>
        have hp1 : prev2.tokenIdx < u32Size := by rw [ih.1]; exact hd
        have hp2 : prev2.fraction < u64Size := by
          rw [ih.2]; norm_num [u64Size]
        rw [uda_transfer_verdict prev2 next2 hp1 hp2 hnexti hnextf] at hacc
        split_ifs at hacc with h1 h2
        exact ⟨h1.symm.trans ih.1, h2⟩

/-- Closed witness for C8: for a UDA contract declaring token index 7, the
genesis allocation with index 7 and fraction 1 is accepted, an allocation
with index 8 is rejected with error 0, and a transfer preserving index 7 and
fraction 1 is accepted. -/
theorem c8_uda_token_identity_preserved_witness :
    run uda_lib FN_UDA_GENESIS_IDX (udaGenesisOp (enc32 7 ++ []) ⟨7, 1⟩) = .accept ∧
    run uda_lib FN_UDA_GENESIS_IDX (udaGenesisOp (enc32 7 ++ []) ⟨8, 1⟩)
      = .reject ERRNO_NON_EQUAL_IN_OUT ∧
    run uda_lib FN_UDA_TRANSFER_IDX (udaTransferOp ⟨7, 1⟩ ⟨7, 1⟩) = .accept :=
  ⟨((c8_uda_token_identity_preserved 7 [] ⟨7, 1⟩ ⟨7, 1⟩ ⟨7, 1⟩ (by decide) (by decide)
      (by decide) (by decide) (by decide) (by decide) (by decide)).2.1).mpr
      ⟨rfl, rfl⟩,
   (c8_uda_token_identity_preserved 7 [] ⟨8, 1⟩ ⟨7, 1⟩ ⟨7, 1⟩ (by decide) (by decide)
      (by decide) (by decide) (by decide) (by decide) (by decide)).2.2.1 (by decide),
   ((c8_uda_token_identity_preserved 7 [] ⟨7, 1⟩ ⟨7, 1⟩ ⟨7, 1⟩ (by decide) (by decide)
      (by decide) (by decide) (by decide) (by decide) (by decide)).2.2.2.2.1).mpr
      ⟨rfl, rfl⟩⟩

/-- Closed witness for C10: the constructor applied to data carrying the NIA
schema succeeds, and applied to data carrying the IFA schema refuses to build
an NIA wrapper. -/
theorem c10_wrapper_constructor_guards_schema_id_witness :
    NiaWrapper.withData ⟨nia_schema, fun _ => []⟩
      = some ⟨⟨nia_schema, fun _ => []⟩⟩ ∧
    NiaWrapper.withData ⟨ifa_schema, fun _ => []⟩ = none :=
  ⟨(c10_wrapper_constructor_guards_schema_id ⟨nia_schema, fun _ => []⟩).1 (by decide),
   (c10_wrapper_constructor_guards_schema_id ⟨ifa_schema, fun _ => []⟩).2.1 (by decide)⟩

end RgbSchemata
